import Mathlib

/-!
Verification of the FigureIt career-guidance core against its specification.

The Python sources are shallowly embedded as Lean definitions:

* `src/ai_engine/market/market_state.py`  — the static skill table (`MarketState.__init__`);
* `src/ai_engine/market/market_pulse.py`  — the `MarketPulse` multiplier logic, with the
  process-lifetime cache passed around explicitly and the external LLM call modelled by an
  explicit oracle value (`LLMResp`);
* `src/ai_engine/agents/evidence_profiler.py` — flag derivation and feature encoding;
* `src/ai_engine/models/user_state.py`    — the data model, in particular the field list of the
  `EvidenceProfile` dataclass;
* `src/ai_engine/agents/context_profiler.py` — `build_context`;
* `src/ai_engine/agents/decision_engine.py`  — feature extraction, scoring and the
  focus / park / drop partition.

Python floats are embedded as `ℚ`.  Python `round(x, n)` rounds half-to-even; the embedding
uses Mathlib `round` (half-up).  The two agree except at exact half-way ties of the last kept
digit, which no statement below exercises.
-/

/-! ### Market state (market_state.py) -/

/-- `SkillMarketSignal` dataclass (market_state.py lines 6-11). -/
structure SkillMarketSignal where
  jobs : Int
  blogs : Int
  saturation : String
  previous_jobs : Int
deriving DecidableEq

/-- The static skill table built by `MarketState.__init__` (market_state.py lines 20-45).
Keys are written exactly as in the source, capitalization included. -/
def marketStateSkills : List (String × SkillMarketSignal) := [
  (("React"), ⟨4200, 380, ("high"), 4500⟩),
  (("Next.js"), ⟨2600, 240, ("medium"), 2300⟩),
  (("Vue.js"), ⟨1200, 150, ("medium"), 1100⟩),
  (("Python"), ⟨5100, 420, ("medium"), 4800⟩),
  (("Java"), ⟨4700, 300, ("medium"), 5000⟩),
  (("Node.js"), ⟨3800, 350, ("high"), 4000⟩),
  (("Go"), ⟨1500, 180, ("low"), 1100⟩),
  (("Docker"), ⟨3600, 260, ("medium"), 3400⟩),
  (("AWS"), ⟨5400, 410, ("medium"), 5000⟩),
  (("TensorFlow"), ⟨1800, 260, ("high"), 2000⟩),
  (("PyTorch"), ⟨2100, 290, ("medium"), 1900⟩),
  (("Rust"), ⟨900, 120, ("low"), 700⟩),
  (("PHP"), ⟨1600, 90, ("high"), 1900⟩)]

/-! ### Market pulse (market_pulse.py) -/

/-- Python `round(x, 2)` on the embedding `ℚ` of floats. -/
def round2 (q : ℚ) : ℚ := ((round (q * 100) : ℤ) : ℚ) / 100

/-- `MarketPulse.TREND_MULTIPLIERS.get(trend, 1.0)` (market_pulse.py lines 25-30):
dictionary lookup with default `1.0`. -/
def trend_multiplier (trend : String) : ℚ :=
  if trend = ("rising") then 1.1
  else if trend = ("stable") then 1.0
  else if trend = ("declining") then 0.9
  else if trend = ("niche") then 0.9
  else 1.0

/-- `MarketPulse.SATURATION_PENALTIES.get(saturation, 0.0)` (market_pulse.py lines 32-36). -/
def saturation_penalty (saturation : String) : ℚ :=
  if saturation = ("high") then -0.15
  else if saturation = ("medium") then 0.0
  else if saturation = ("low") then 0.1
  else 0.0

/-- Removes leading and trailing whitespace from a character list (Python `str.strip()`). -/
def trimChars (l : List Char) : List Char :=
  ((l.dropWhile Char.isWhitespace).reverse.dropWhile Char.isWhitespace).reverse

/-- Python `str.lower()`, implemented over the character list (the strings this code meets are
ASCII). -/
def strLower (s : String) : String := ⟨s.data.map Char.toLower⟩

/-- `MarketPulse._normalize_skill` (market_pulse.py lines 53-56): `skill.strip().lower()`.
Implemented over the character list (the skill names in this repository are ASCII). -/
def normalize_skill (skill : String) : String := strLower ⟨trimChars skill.data⟩

/-- `MarketPulse._calculate_trend` (market_pulse.py lines 58-70). -/
def calculate_trend (current previous : Int) : String :=
  if previous = 0 then ("rising")
  else
    let delta : ℚ := ((current : ℚ) - (previous : ℚ)) / (previous : ℚ)
    if delta ≥ 0.15 then ("rising")
    else if delta ≤ -0.15 then ("declining")
    else ("stable")

/-- `MarketPulse._known_skill_multiplier` (market_pulse.py lines 72-94). -/
def known_skill_multiplier (signal : SkillMarketSignal) : ℚ :=
  let m0 : ℚ := 1.0
  let m1 : ℚ :=
    if signal.jobs > 4500 then m0 + 0.2
    else if signal.jobs > 2500 then m0 + 0.1
    else if signal.jobs < 1000 then m0 - 0.1
    else m0
  let m2 : ℚ := m1 * trend_multiplier (calculate_trend signal.jobs signal.previous_jobs)
  let m3 : ℚ := m2 + saturation_penalty signal.saturation
  round2 (min (max m3 0.7) 1.3)

/-- Outcome of the external LLM interaction inside the `try` block of
`MarketPulse._classify_unknown_skill` (market_pulse.py lines 132-153).
`failure` is any raised exception (timeout, transport error, non-JSON body, a JSON body that is
not an object, or a non-string `trend` value, which would make `.lower()` raise).
`success t` is a parsed JSON object whose optional `trend` entry is the string `t`. -/
inductive LLMResp where
  | failure : LLMResp
  | success : Option String → LLMResp
deriving DecidableEq

/-- The classification cache `MarketPulse._cache`, passed around explicitly.
Python dictionary assignment is modelled by consing the new binding in front, with
`List.lookup` returning the most recent binding. -/
abbrev MarketCache := List (String × ℚ)

/-- `MarketPulse._classify_unknown_skill` (market_pulse.py lines 100-153), with the cache made
explicit and the external call replaced by its oracle outcome `resp`.  Returns the multiplier,
the updated cache, and whether the external classification call was made. -/
def classify_unknown_skill (cache : MarketCache) (skill : String) (resp : LLMResp) :
    ℚ × MarketCache × Bool :=
  let normalized := normalize_skill skill
  match cache.lookup normalized with
  | some m => (m, cache, false)
  | none =>
    match resp with
    | LLMResp.failure => (1.0, cache, true)
    | LLMResp.success t =>
      let trend := strLower (t.getD ("stable"))
      let m := trend_multiplier trend
      (m, (normalized, m) :: cache, true)

/-- `MarketPulse.get_market_multiplier` (market_pulse.py lines 159-170).  The returned `Bool`
records whether the external classification call was made during this invocation. -/
def get_market_multiplier (cache : MarketCache) (skill : String) (resp : LLMResp) :
    ℚ × MarketCache × Bool :=
  let normalized := normalize_skill skill
  match marketStateSkills.lookup normalized with
  | some signal => (known_skill_multiplier signal, cache, false)
  | none => classify_unknown_skill cache skill resp

/-- Every multiplier stored in the cache is within the decision-safe band. -/
def cacheBounded (cache : MarketCache) : Prop :=
  ∀ p ∈ cache, 0.7 ≤ p.2 ∧ p.2 ≤ 1.3

/-! ### Evidence profiler (evidence_profiler.py) -/

/-- A GitHub evidence record as consumed by `build_evidence`: the `valid` marker and the values
that the `dict.get` calls with default `0` / empty string produce (evidence_profiler.py lines
115-127).  A missing record (`None`, or an empty dict, which is falsy like `None`) is `none` at
the use sites. -/
structure GithubRecord where
  valid : Bool
  repos : Int
  stars : Int
  account_created : String
deriving DecidableEq

/-- A LeetCode evidence record as consumed by `build_evidence` (evidence_profiler.py lines
145-154). -/
structure LeetcodeRecord where
  valid : Bool
  total_solved : Int
  easy : Int
  medium : Int
  hard : Int
deriving DecidableEq

/-- `TAG_ENCODINGS` (evidence_profiler.py lines 45-64), in dictionary insertion order. -/
def TAG_ENCODINGS : List (String × String) := [
  (("no_project_evidence"), ("has_projects")),
  (("early_stage_projects"), ("early_projects")),
  (("projects_show_real_world_signal"), ("project_impact")),
  (("portfolio_needs_polish"), ("portfolio_polish_needed")),
  (("stagnant_project_growth"), ("project_stagnation")),
  (("no_dsa_evidence"), ("has_dsa")),
  (("weak_dsa_foundation"), ("weak_dsa")),
  (("dsa_sufficient_for_interviews"), ("dsa_interview_ready")),
  (("dsa_saturation_reached"), ("dsa_saturated")),
  (("low_difficulty_bias"), ("easy_bias")),
  (("shift_focus_to_projects"), ("needs_project_focus")),
  (("strengthen_core_dsa"), ("needs_dsa_focus")),
  (("execution_ready_profile"), ("execution_ready"))]

/-- `_encode_flags` (evidence_profiler.py lines 81-91): for every registered tag, the feature
named by the registry is the 0/1 indicator of that tag in `flags`. -/
def encode_flags (flags : List String) : List (String × Nat) :=
  TAG_ENCODINGS.map (fun e => (e.2, if e.1 ∈ flags then 1 else 0))

/-- The flag-derivation part of `build_evidence` (evidence_profiler.py lines 109-188).
`calcAge` stands for `_calculate_account_age` composed with the wall clock (lines 71-78); it is
kept abstract because the source reads `datetime.now()`.  Thresholds are inlined from
`THRESHOLDS` (lines 26-38).  Appends to the `flags` list are modelled by concatenation in
program order. -/
def build_evidence_flags (github_stats : Option GithubRecord)
    (leetcode_stats : Option LeetcodeRecord) (calcAge : String → ℚ) : List String :=
  let gh_valid := match github_stats with
    | none => false
    | some g => g.valid
  let ghFlags : List String :=
    match github_stats with
    | none => [("no_project_evidence")]
    | some g =>
      if !g.valid then [("no_project_evidence")]
      else
        let repo_count := g.repos
        let stars := g.stars
        let account_age := calcAge g.account_created
        (if repo_count < 3 then [("early_stage_projects")] else []) ++
        (if stars ≥ 5 then [("projects_show_real_world_signal")] else []) ++
        (if stars < 10 ∧ repo_count ≥ 5 then [("portfolio_needs_polish")] else []) ++
        (if account_age > 2 ∧ repo_count < 5 then [("stagnant_project_growth")] else [])
  let lcFlags : List String :=
    match leetcode_stats with
    | none => [("no_dsa_evidence")]
    | some l =>
      if !l.valid then [("no_dsa_evidence")]
      else
        let total := l.total_solved
        let easy := l.easy
        let medium := l.medium
        (if total < 15 then [("weak_dsa_foundation")] else []) ++
        (if medium ≥ 40 then [("dsa_sufficient_for_interviews")] else []) ++
        (if total ≥ 200 then [("dsa_saturation_reached")] else []) ++
        (if total > 50 ∧ ((easy : ℚ) / (total : ℚ)) > 0.7 then [("low_difficulty_bias")] else [])
  let flags1 := ghFlags ++ lcFlags
  let flags2 :=
    if ("dsa_saturation_reached") ∈ flags1 ∧ ("portfolio_needs_polish") ∈ flags1 then
      flags1 ++ [("shift_focus_to_projects")] else flags1
  let flags3 :=
    if ("projects_show_real_world_signal") ∈ flags2 ∧ ("weak_dsa_foundation") ∈ flags2 then
      flags2 ++ [("strengthen_core_dsa")] else flags2
  let flags4 :=
    if ("projects_show_real_world_signal") ∈ flags3 ∧ ("dsa_sufficient_for_interviews") ∈ flags3
    then flags3 ++ [("execution_ready_profile")] else flags3
  let _ := gh_valid
  flags4

/-- The field list of the `EvidenceProfile` dataclass (user_state.py lines 100-113): these are
the only keyword arguments its constructor accepts. -/
def evidenceProfileFields : List String :=
  [("github_stats"), ("leetcode_stats"), ("flags"), ("feature_vector")]

/-- The keyword arguments that `build_evidence` passes to the `EvidenceProfile` constructor
(evidence_profiler.py lines 200-205). -/
def buildEvidenceKeywords : List String :=
  [("github_stats"), ("leetcode_stats"), ("flags"), ("encoded_features")]

/-- The value `build_evidence` would attach to the user state. -/
structure EvidenceResult where
  github_stats : Option GithubRecord
  leetcode_stats : Option LeetcodeRecord
  flags : List String
  encoded_features : List (String × Nat)
deriving DecidableEq

/-- `build_evidence` (evidence_profiler.py lines 98-207).  The final step calls the
`EvidenceProfile` dataclass constructor with the keyword arguments of `buildEvidenceKeywords`;
a Python dataclass raises `TypeError` when a keyword is not among its fields, which the
embedding models by checking the keyword list against `evidenceProfileFields`. -/
def build_evidence (github_stats : Option GithubRecord)
    (leetcode_stats : Option LeetcodeRecord) (calcAge : String → ℚ) :
    Except String EvidenceResult :=
  let gh_valid := match github_stats with
    | none => false
    | some g => g.valid
  let lc_valid := match leetcode_stats with
    | none => false
    | some l => l.valid
  let flags := build_evidence_flags github_stats leetcode_stats calcAge
  let encoded_features := encode_flags flags
  if buildEvidenceKeywords.all (fun k => evidenceProfileFields.contains k) then
    Except.ok
      { github_stats := if gh_valid then github_stats else none
        leetcode_stats := if lc_valid then leetcode_stats else none
        flags := flags
        encoded_features := encoded_features }
  else
    Except.error ("TypeError: EvidenceProfile.init got an unexpected keyword argument")

/-! ### Context profiler (context_profiler.py) and user_state.py enums -/

/-- `Strictness` enum (user_state.py lines 35-38). -/
inductive Strictness where
  | LOW | MEDIUM | HIGH
deriving DecidableEq

/-- `Urgency` enum (user_state.py lines 46-49). -/
inductive Urgency where
  | LOW | MEDIUM | HIGH
deriving DecidableEq

/-- `ProofExpectation` enum (user_state.py lines 41-44). -/
inductive ProofExpectation where
  | BASIC | STRONG
deriving DecidableEq

/-- `BasicProfile` dataclass fields (user_state.py lines 56-65); `constraints` carries no
logic and is omitted. -/
structure BasicProfile where
  college_tier : Int
  year_of_study : Int
  time_availability : Int
deriving DecidableEq

/-- The `__post_init__` validation of `BasicProfile` (user_state.py lines 67-73). -/
def BasicProfile.valid (b : BasicProfile) : Prop :=
  1 ≤ b.college_tier ∧ b.college_tier ≤ 3 ∧
  1 ≤ b.year_of_study ∧ b.year_of_study ≤ 5 ∧
  0 ≤ b.time_availability

/-- `ContextProfile` dataclass (user_state.py lines 88-97). -/
structure ContextProfile where
  strictness_level : Strictness
  urgency_level : Urgency
  max_focus_skills : Nat
  proof_expectation : ProofExpectation
deriving DecidableEq

/-- The profile computation of `build_context` (context_profiler.py lines 35-98).  The
idempotency guard (lines 31-33) returns the user state unchanged when a context profile is
already attached; no claim below concerns it, so the embedding is the attached-profile
computation.  The sequential reassignments of `strictness` are modelled by the chained lets. -/
def build_context_profile (basic : BasicProfile) : ContextProfile :=
  let urgency :=
    if basic.year_of_study ≥ 4 then Urgency.HIGH
    else if basic.year_of_study = 3 then Urgency.MEDIUM
    else Urgency.LOW
  let strictness0 := Strictness.MEDIUM
  let strictness1 :=
    if basic.college_tier = 3 ∧ basic.year_of_study ≥ 3 then Strictness.HIGH else strictness0
  let strictness2 :=
    if basic.time_availability < 8 then Strictness.HIGH else strictness1
  let strictness :=
    if basic.college_tier = 1 ∧ basic.year_of_study ≤ 2 then Strictness.LOW else strictness2
  let max_focus : Nat :=
    if urgency = Urgency.HIGH then 1
    else if strictness = Strictness.HIGH then 1
    else 2
  let proof :=
    if basic.college_tier = 3 ∨ urgency = Urgency.HIGH then ProofExpectation.STRONG
    else ProofExpectation.BASIC
  { strictness_level := strictness
    urgency_level := urgency
    max_focus_skills := max_focus
    proof_expectation := proof }

/-! ### Decision engine (decision_engine.py) -/

/-- `CAREER_PATHS` (decision_engine.py lines 24-29), in declaration order. -/
def CAREER_PATHS : List String :=
  [("Frontend Engineering"), ("Backend Engineering"),
   ("Data Science / ML"), ("Competitive Programming")]

/-- `PATH_DIFFICULTY` (decision_engine.py lines 32-37).  The Python dictionary access
`PATH_DIFFICULTY[path]` is only reached with keys from `CAREER_PATHS`; other keys, which would
raise `KeyError`, are mapped to `0`. -/
def PATH_DIFFICULTY (path : String) : ℚ :=
  if path = ("Frontend Engineering") then 0.2
  else if path = ("Backend Engineering") then 0.3
  else if path = ("Data Science / ML") then 0.6
  else if path = ("Competitive Programming") then 0.4
  else 0

/-- The feature vector produced by `extract_features` (decision_engine.py lines 44-72). -/
structure Features where
  project_strength : ℚ
  project_volume : ℚ
  dsa_depth : ℚ
  dsa_volume : ℚ
  easy_bias : ℚ
  interest_dev : ℚ
  interest_ps : ℚ
  interest_data : ℚ
deriving DecidableEq

/-- The values the `dict.get` calls of `extract_features` read from the attached
`github_stats` dictionary; an empty dictionary (invalid source) is all defaults. -/
structure GithubStats where
  stars : Int := 0
  repos : Int := 0
deriving DecidableEq

/-- The values the `dict.get` calls of `extract_features` read from the attached
`leetcode_stats` dictionary.  `total_solved_or1` is `lc.get("total_solved", 1)`, whose default
is `1`, unlike the `0` default used for `lc.get("total_solved", 0)`. -/
structure LeetcodeStats where
  medium : Int := 0
  total_solved : Int := 0
  easy : Int := 0
deriving DecidableEq

/-- The three interest-bias values read by `extract_features`
(`bias.get(key, 0.0)` for development, problem_solving, data). -/
structure InterestBias where
  development : ℚ := 0
  problem_solving : ℚ := 0
  data : ℚ := 0
deriving DecidableEq

/-- `extract_features` (decision_engine.py lines 44-72).  For a dictionary that stores
`total_solved`, `lc.get("total_solved", 1)` and `lc.get("total_solved", 0)` agree; the empty
dictionary of an invalid source gives `0` for the latter and `1` for the former, and
`max(1, 1) = max(0, 1) = 1`, so a single `total_solved` field with default `0` is faithful. -/
def extract_features (gh : GithubStats) (lc : LeetcodeStats) (bias : InterestBias) : Features :=
  { project_strength := min ((gh.stars : ℚ) / 10) 1
    project_volume := min ((gh.repos : ℚ) / 10) 1
    dsa_depth := min ((lc.medium : ℚ) / 40) 1
    dsa_volume := min ((lc.total_solved : ℚ) / 300) 1
    easy_bias := min ((lc.easy : ℚ) / (max (lc.total_solved : ℚ) 1)) 1
    interest_dev := bias.development
    interest_ps := bias.problem_solving
    interest_data := bias.data }

/-- Python `round(x, 3)` on the embedding `ℚ` of floats. -/
def round3 (q : ℚ) : ℚ := ((round (q * 1000) : ℤ) : ℚ) / 1000

/-- The weighted base term of `score_path` (decision_engine.py lines 88-117): the per-path
linear combination accumulated into `score` before the context penalty. -/
def base_score (path : String) (f : Features) : ℚ :=
  if path = ("Frontend Engineering") then
    0.4 * f.project_strength + 0.2 * f.project_volume + 0.4 * f.interest_dev
  else if path = ("Backend Engineering") then
    0.3 * f.project_strength + 0.2 * f.dsa_depth + 0.3 * f.interest_dev + 0.2 * f.interest_ps
  else if path = ("Data Science / ML") then
    0.4 * f.dsa_depth + 0.4 * f.interest_data - 0.2 * f.easy_bias
  else if path = ("Competitive Programming") then
    0.5 * f.dsa_depth + 0.3 * f.interest_ps - 0.2 * f.easy_bias
  else 0

/-- The context penalty of `score_path` (decision_engine.py lines 119-124). -/
def context_penalty (path : String) (hours : Int) : ℚ :=
  let difficulty := PATH_DIFFICULTY path
  if hours < 10 then difficulty * 0.6
  else if hours < 15 then difficulty * 0.3
  else 0

/-- `score_path` (decision_engine.py lines 79-126): base terms, minus the context penalty,
clamped at zero and rounded to three decimals. -/
def score_path (path : String) (f : Features) (hours : Int) : ℚ :=
  round3 (max (base_score path f - context_penalty path hours) 0)

/-- The ranking order of `sorted(scores.items(), key=lambda x: x[1], reverse=True)`
(decision_engine.py line 147): `x` ranks no lower than `y` when its score is at least
`y`s score. -/
def rankRel (x y : String × ℚ) : Prop := y.2 ≤ x.2

instance : DecidableRel rankRel := fun x y => inferInstanceAs (Decidable (y.2 ≤ x.2))

instance : IsTotal (String × ℚ) rankRel := ⟨fun x y => le_total y.2 x.2⟩

instance : IsTrans (String × ℚ) rankRel := ⟨fun _ _ _ h1 h2 => le_trans h2 h1⟩

/-- `ranked` (decision_engine.py line 147): Python `sorted` is a stable sort; descending by
score with ties in dictionary insertion order is exactly the stable insertion sort under
`rankRel`. -/
def rank_scores (scores : List (String × ℚ)) : List (String × ℚ) :=
  List.insertionSort rankRel scores

/-- The reason recorded for a path (decision_engine.py lines 154, 157, 160, 164): the branch
taken and the score interpolated into the f-string. -/
inductive Reason where
  | lowViability : ℚ → Reason
  | bestAlignment : ℚ → Reason
  | focusLimit : ℚ → Reason
  | fallback : Reason
deriving DecidableEq

/-- The mutable lists `focus, park, drop, reasons` of the partitioning loop
(decision_engine.py line 149).  `reasons` is the dictionary, modelled as a list whose most
recent assignment is found first by `List.lookup`. -/
structure DecisionAcc where
  focus : List String
  park : List String
  drop : List String
  reasons : List (String × Reason)
deriving DecidableEq

/-- One iteration of the partitioning loop (decision_engine.py lines 151-160). -/
def decision_step (max_focus : Nat) (acc : DecisionAcc) (x : String × ℚ) : DecisionAcc :=
  if x.2 < 0.25 then
    { acc with drop := acc.drop ++ [x.1], reasons := (x.1, Reason.lowViability x.2) :: acc.reasons }
  else if acc.focus.length < max_focus then
    { acc with focus := acc.focus ++ [x.1], reasons := (x.1, Reason.bestAlignment x.2) :: acc.reasons }
  else
    { acc with park := acc.park ++ [x.1], reasons := (x.1, Reason.focusLimit x.2) :: acc.reasons }

/-- The partitioning loop over the ranked list (decision_engine.py lines 149-160). -/
def run_partition (ranked : List (String × ℚ)) (max_focus : Nat) : DecisionAcc :=
  ranked.foldl (decision_step max_focus) ⟨[], [], [], []⟩

/-- `DecisionState` (user_state.py lines 116-128), without the timestamp. -/
structure DecisionState where
  focus : List String
  park : List String
  drop : List String
  reasons : List (String × Reason)
deriving DecidableEq

/-- The tail of `make_decision` (decision_engine.py lines 147-171): rank, partition, and the
empty-focus fallback `focus.append(ranked[0][0])` (lines 162-164), which also overwrites that
path entry in `reasons`.  `ranked` is never empty there (`CAREER_PATHS` has four entries);
on `[]` the Python `ranked[0]` would raise `IndexError`, and the embedding returns the
accumulator unchanged. -/
def decision_from_scores (scores : List (String × ℚ)) (max_focus : Nat) : DecisionState :=
  let ranked := rank_scores scores
  let acc := run_partition ranked max_focus
  match acc.focus, ranked with
  | [], (p, _) :: _ =>
    { focus := [p], park := acc.park, drop := acc.drop,
      reasons := (p, Reason.fallback) :: acc.reasons }
  | _, _ =>
    { focus := acc.focus, park := acc.park, drop := acc.drop, reasons := acc.reasons }

/-- The `scores` dictionary of `make_decision` (decision_engine.py lines 142-145), in
`CAREER_PATHS` insertion order. -/
def path_scores (f : Features) (hours : Int) : List (String × ℚ) :=
  CAREER_PATHS.map (fun path => (path, score_path path f hours))

/-- `make_decision` (decision_engine.py lines 133-173): extract features, score every career
path in declaration order, rank, partition, fallback. -/
def make_decision (gh : GithubStats) (lc : LeetcodeStats) (bias : InterestBias)
    (hours : Int) (max_focus : Nat) : DecisionState :=
  decision_from_scores (path_scores (extract_features gh lc bias) hours) max_focus

/-! ### The market-aware decision engine variant (not under src/) -/

/-- Modelled from the spec: section 9 records that the repository contains a second,
market-aware Decision Engine (`make_decision(profile, market) -> DecisionState`) which the
spec follows; it is not under `src/` (the orchestrator comment `Market-aware, internal` and
the advisor prompt `decided using math + market data` refer to it).  Spec section 4.4 step 4:
the mean of the market multiplier across the representative skill set of a path, a path with
no mapped skills using the neutral multiplier `1.0`. -/
def market_mean (mult : String → ℚ) (skills : List String) : ℚ :=
  if skills = [] then 1 else (skills.map mult).sum / (skills.length : ℚ)

/-- Modelled from the spec: section 4.4 steps 2-5 of the market-aware Decision Engine.  The
base weight table and context penalty of the spec coincide with `score_path` of the engine
under `src/`; step 4 multiplies the post-penalty score by the mean multiplier, step 5 clamps
at zero and rounds to three decimals.  The representative skill sets (`pathSkills`) and the
market multiplier of the moment (`mult`) are parameters the spec leaves open. -/
def score_path_market (pathSkills : String → List String) (mult : String → ℚ)
    (path : String) (f : Features) (hours : Int) : ℚ :=
  round3 (max ((base_score path f - context_penalty path hours)
      * market_mean mult (pathSkills path)) 0)

/-- Modelled from the spec: section 4.4 step 6 of the market-aware Decision Engine; the
partitioning is the one of decision_engine.py lines 147-171. -/
def make_decision_market (pathSkills : String → List String) (mult : String → ℚ)
    (gh : GithubStats) (lc : LeetcodeStats) (bias : InterestBias)
    (hours : Int) (max_focus : Nat) : DecisionState :=
  let f := extract_features gh lc bias
  let scores := CAREER_PATHS.map
    (fun path => (path, score_path_market pathSkills mult path f hours))
  decision_from_scores scores max_focus

/-- The paths of a ranked list that score at or above the drop floor, in ranked order. -/
def keptPaths (l : List (String × ℚ)) : List String :=
  (l.filter (fun x => decide (0.25 ≤ x.2))).map Prod.fst

/-- The paths of a ranked list that score below the drop floor, in ranked order. -/
def lowPaths (l : List (String × ℚ)) : List String :=
  (l.filter (fun x => decide (x.2 < 0.25))).map Prod.fst

/-! ### Helper lemmas -/

theorem lookup_mem {l : List (String × ℚ)} {k : String} {v : ℚ}
    (h : l.lookup k = some v) : (k, v) ∈ l := by
  induction l with
  | nil => simp [List.lookup] at h
  | cons a t ih =>
    rw [show a = (a.1, a.2) from rfl, List.lookup_cons] at h
    by_cases hk : k = a.1
    · subst hk
      simp at h
      subst h
      exact List.mem_cons_self _ _
    · have hb : (k == a.1) = false := beq_false_of_ne hk
      rw [hb] at h
      simp only [Bool.false_eq_true, if_false] at h
      exact List.mem_cons_of_mem _ (ih h)

theorem round_mono_q {x y : ℚ} (h : x ≤ y) : round x ≤ round y := by
  rw [round_eq, round_eq]
  exact Int.floor_le_floor (by linarith)

theorem round2_bounds {q : ℚ} (h1 : 0.7 ≤ q) (h2 : q ≤ 1.3) :
    0.7 ≤ round2 q ∧ round2 q ≤ 1.3 := by
  have h70 : round ((70:ℚ)) = 70 := by norm_num [round_eq]
  have h130 : round ((130:ℚ)) = 130 := by norm_num [round_eq]
  have hl : (70:ℤ) ≤ round (q * 100) := by
    rw [← h70]
    exact round_mono_q (by linarith)
  have hr : round (q * 100) ≤ 130 := by
    rw [← h130]
    exact round_mono_q (by linarith)
  have hlq : (70:ℚ) ≤ ((round (q * 100) : ℤ) : ℚ) := by exact_mod_cast hl
  have hrq : ((round (q * 100) : ℤ) : ℚ) ≤ 130 := by exact_mod_cast hr
  constructor
  · rw [round2]
    linarith
  · rw [round2]
    linarith

theorem known_skill_multiplier_bounds (s : SkillMarketSignal) :
    0.7 ≤ known_skill_multiplier s ∧ known_skill_multiplier s ≤ 1.3 := by
  rw [known_skill_multiplier]
  exact round2_bounds (le_min (le_max_right _ _) (by norm_num)) (min_le_right _ _)

theorem trend_multiplier_bounds (t : String) :
    0.7 ≤ trend_multiplier t ∧ trend_multiplier t ≤ 1.3 := by
  rw [trend_multiplier]
  split_ifs <;> norm_num

theorem foldl_decision_step (m : Nat) :
    ∀ (l : List (String × ℚ)) (acc : DecisionAcc),
      (l.foldl (decision_step m) acc).focus
          = acc.focus ++ (keptPaths l).take (m - acc.focus.length)
      ∧ (l.foldl (decision_step m) acc).park
          = acc.park ++ (keptPaths l).drop (m - acc.focus.length)
      ∧ (l.foldl (decision_step m) acc).drop = acc.drop ++ lowPaths l := by
  intro l
  induction l with
  | nil =>
    intro acc
    simp [keptPaths, lowPaths]
  | cons x t ih =>
    intro acc
    rw [List.foldl_cons]
    obtain ⟨h1, h2, h3⟩ := ih (decision_step m acc x)
    by_cases hx : x.2 < 0.25
    · have hstep : decision_step m acc x =
          { acc with drop := acc.drop ++ [x.1],
                     reasons := (x.1, Reason.lowViability x.2) :: acc.reasons } := by
        rw [decision_step, if_pos hx]
      have hk : keptPaths (x :: t) = keptPaths t := by
        simp [keptPaths, List.filter_cons, not_le.mpr hx]
      have hlow : lowPaths (x :: t) = x.1 :: lowPaths t := by
        simp [lowPaths, List.filter_cons, hx]
      rw [hstep] at h1 h2 h3 ⊢
      refine ⟨?_, ?_, ?_⟩
      · simp only [h1]
        simp [hk]
      · simp only [h2]
        simp [hk]
      · simp only [h3]
        simp [hlow]
    · have hx2 : 0.25 ≤ x.2 := not_lt.mp hx
      have hk : keptPaths (x :: t) = x.1 :: keptPaths t := by
        simp [keptPaths, List.filter_cons, hx2]
      have hlow : lowPaths (x :: t) = lowPaths t := by
        simp [lowPaths, List.filter_cons, hx]
      by_cases hlen : acc.focus.length < m
      · have hstep : decision_step m acc x =
            { acc with focus := acc.focus ++ [x.1],
                       reasons := (x.1, Reason.bestAlignment x.2) :: acc.reasons } := by
          rw [decision_step, if_neg hx, if_pos hlen]
        rw [hstep] at h1 h2 h3 ⊢
        obtain ⟨j, hj⟩ : ∃ j, m - acc.focus.length = j + 1 :=
          ⟨m - acc.focus.length - 1, by omega⟩
        have hj2 : m - (acc.focus.length + 1) = j := by omega
        refine ⟨?_, ?_, ?_⟩
        · simp only [h1]
          simp [hk, hj, hj2, List.take_succ_cons]
        · simp only [h2]
          simp [hk, hj, hj2, List.drop_succ_cons]
        · simp only [h3]
          simp [hlow]
      · have hstep : decision_step m acc x =
            { acc with park := acc.park ++ [x.1],
                       reasons := (x.1, Reason.focusLimit x.2) :: acc.reasons } := by
          rw [decision_step, if_neg hx, if_neg hlen]
        rw [hstep] at h1 h2 h3 ⊢
        have hz : m - acc.focus.length = 0 := by omega
        refine ⟨?_, ?_, ?_⟩
        · simp only [h1]
          simp [hk, hz]
        · simp only [h2]
          simp [hk, hz]
        · simp only [h3]
          simp [hlow]

/-- The three lists produced by the partitioning loop, in terms of the ranked input. -/
theorem run_partition_eq (ranked : List (String × ℚ)) (m : Nat) :
    (run_partition ranked m).focus = (keptPaths ranked).take m
    ∧ (run_partition ranked m).park = (keptPaths ranked).drop m
    ∧ (run_partition ranked m).drop = lowPaths ranked := by
  have h := foldl_decision_step m ranked ⟨[], [], [], []⟩
  simpa [run_partition] using h

/-! ### Claim theorems -/

/-- C8: for every valid `BasicProfile`, strictness is the safety-net override applied after the
tier-tax and bandwidth raises (the `LOW` override can downgrade a `HIGH` result); for
`tier=1, year=1, hours=20` the classifier yields strictness `LOW`, urgency `LOW`,
`max_focus_skills = 2` and proof expectation `BASIC`; and every tier-1 student in year at most
2 gets strictness `LOW`, even with fewer than 8 hours. -/
theorem C8_strictness_order (b : BasicProfile) (hb : b.valid) :
    ((build_context_profile b).strictness_level =
      if b.college_tier = 1 ∧ b.year_of_study ≤ 2 then Strictness.LOW
      else if (b.college_tier = 3 ∧ b.year_of_study ≥ 3) ∨ b.time_availability < 8 then
        Strictness.HIGH
      else Strictness.MEDIUM)
    ∧ build_context_profile ⟨1, 1, 20⟩
        = ⟨Strictness.LOW, Urgency.LOW, 2, ProofExpectation.BASIC⟩
    ∧ (b.college_tier = 1 → b.year_of_study ≤ 2 →
        (build_context_profile b).strictness_level = Strictness.LOW) := by
  have hcore : (build_context_profile b).strictness_level =
      if b.college_tier = 1 ∧ b.year_of_study ≤ 2 then Strictness.LOW
      else if (b.college_tier = 3 ∧ b.year_of_study ≥ 3) ∨ b.time_availability < 8 then
        Strictness.HIGH
      else Strictness.MEDIUM := by
    simp only [build_context_profile]
    split_ifs <;> simp_all <;> omega
  refine ⟨hcore, by decide, ?_⟩
  intro h1 h2
  rw [hcore, if_pos ⟨h1, h2⟩]

/-- C8 witness: a tier-1 sophomore with 5 hours per week is downgraded to `LOW` strictness
even though the bandwidth rule alone would demand `HIGH`. -/
theorem C8_strictness_order_witness :
    (build_context_profile ⟨1, 2, 5⟩).strictness_level = Strictness.LOW :=
  (C8_strictness_order ⟨1, 2, 5⟩ (by refine ⟨?_, ?_, ?_, ?_, ?_⟩ <;> norm_num)).2.2 rfl
    (by decide)

/-- C9: for every skill and every outcome of the external call, starting from any cache whose
entries are in band, the returned multiplier lies in `[0.7, 1.3]` and the updated cache stays
in band (so the bound holds along every reachable execution). -/
theorem C9_multiplier_bounds (cache : MarketCache) (skill : String) (resp : LLMResp)
    (hc : cacheBounded cache) :
    (0.7 ≤ (get_market_multiplier cache skill resp).1
      ∧ (get_market_multiplier cache skill resp).1 ≤ 1.3)
    ∧ cacheBounded (get_market_multiplier cache skill resp).2.1 := by
  rcases hsig : marketStateSkills.lookup (normalize_skill skill) with _ | s
  · rcases hcm : cache.lookup (normalize_skill skill) with _ | m
    · cases resp with
      | failure =>
        simp only [get_market_multiplier, hsig, classify_unknown_skill, hcm]
        exact ⟨⟨by norm_num, by norm_num⟩, hc⟩
      | success t =>
        simp only [get_market_multiplier, hsig, classify_unknown_skill, hcm]
        refine ⟨trend_multiplier_bounds _, ?_⟩
        intro p hp
        rcases List.mem_cons.mp hp with h | h
        · rw [h]
          exact trend_multiplier_bounds _
        · exact hc p h
    · simp only [get_market_multiplier, hsig, classify_unknown_skill, hcm]
      exact ⟨hc _ (lookup_mem hcm), hc⟩
  · simp only [get_market_multiplier, hsig]
    exact ⟨known_skill_multiplier_bounds s, hc⟩

/-- C9 witness: a failing classification of an unknown skill over the empty cache. -/
theorem C9_multiplier_bounds_witness :
    (0.7 ≤ (get_market_multiplier [] ("Rust Embedded") LLMResp.failure).1
      ∧ (get_market_multiplier [] ("Rust Embedded") LLMResp.failure).1 ≤ 1.3)
    ∧ cacheBounded (get_market_multiplier [] ("Rust Embedded") LLMResp.failure).2.1 :=
  C9_multiplier_bounds [] ("Rust Embedded") LLMResp.failure (by simp [cacheBounded])

/-- C6 counterexample: a parsed JSON object whose trend is `explosive` — not one of the four
labels — is treated as a success by the code: the neutral multiplier 1.0 is computed through
the dictionary default and a cache entry IS stored for the skill, contradicting the claim
that such a response leaves no cache entry. -/
theorem C6_unrecognized_label_cached :
    get_market_multiplier [] ("Quantum Weaving") (LLMResp.success (some ("explosive")))
      = (1.0, [((("quantum weaving") : String), (1.0 : ℚ))], true)
    ∧ (get_market_multiplier [] ("Quantum Weaving")
        (LLMResp.success (some ("explosive")))).2.1.lookup ("quantum weaving") ≠ none := by
  have hsig : marketStateSkills.lookup ("quantum weaving") = none := by decide
  have hnorm : normalize_skill ("Quantum Weaving") = ("quantum weaving") := by decide
  have hlow : strLower ("explosive") = ("explosive") := by decide
  constructor
  · simp [get_market_multiplier, hsig, classify_unknown_skill, hnorm, hlow, trend_multiplier]
  · simp [get_market_multiplier, hsig, classify_unknown_skill, hnorm, hlow, trend_multiplier,
      List.lookup_cons]

/-- C6 amended: an exception in the external call (timeout, transport error, malformed or
non-object JSON) propagates nothing, yields the neutral multiplier 1.0 and stores no cache
entry, so it is retried on the next invocation; any successfully parsed object response — even
one whose trend is missing or not one of the four labels — is cached under the normalized
name. -/
theorem C6_failure_not_cached (cache : MarketCache) (skill : String)
    (hsig : marketStateSkills.lookup (normalize_skill skill) = none)
    (hcm : cache.lookup (normalize_skill skill) = none) :
    get_market_multiplier cache skill LLMResp.failure = (1.0, cache, true)
    ∧ ∀ t, (get_market_multiplier cache skill (LLMResp.success t)).2.1.lookup
        (normalize_skill skill) = some (get_market_multiplier cache skill (LLMResp.success t)).1 := by
  constructor
  · simp [get_market_multiplier, hsig, classify_unknown_skill, hcm]
  · intro t
    simp only [get_market_multiplier, hsig, classify_unknown_skill, hcm]
    simp [List.lookup_cons]

/-- C6 witness: concrete failing call over the empty cache. -/
theorem C6_failure_not_cached_witness :
    get_market_multiplier [] ("Rust Embedded") LLMResp.failure = (1.0, [], true) :=
  (C6_failure_not_cached [] ("Rust Embedded") (by decide) (by simp)).1

/-- C10 counterexample: when the first classification of `Rust Embedded` fails, nothing is
cached, and the second call (a whitespace variant) invokes the external classification path
again — the external path is triggered twice, not at most once. -/
theorem C10_failure_retriggers :
    (get_market_multiplier [] ("Rust Embedded") LLMResp.failure).2.2 = true
    ∧ (get_market_multiplier
        (get_market_multiplier [] ("Rust Embedded") LLMResp.failure).2.1
        (" rust embedded ") LLMResp.failure).2.2 = true := by
  have hsig : marketStateSkills.lookup (normalize_skill ("Rust Embedded")) = none := by decide
  have hsig2 : marketStateSkills.lookup (normalize_skill (" rust embedded ")) = none := by
    decide
  constructor
  · simp [get_market_multiplier, hsig, classify_unknown_skill]
  · simp [get_market_multiplier, hsig, hsig2, classify_unknown_skill]

/-- C10 amended: provided the first call's external classification parses (the success case,
whatever the trend label), a second call with any case or whitespace variant of the same
unknown skill is answered from the cache: no external call, the identical multiplier, and an
unchanged cache. -/
theorem C10_cache_idempotent (cache : MarketCache) (s1 s2 : String) (t : Option String)
    (resp2 : LLMResp)
    (hnorm : normalize_skill s1 = normalize_skill s2)
    (hsig : marketStateSkills.lookup (normalize_skill s1) = none) :
    (get_market_multiplier (get_market_multiplier cache s1 (LLMResp.success t)).2.1 s2 resp2).2.2
        = false
    ∧ (get_market_multiplier (get_market_multiplier cache s1 (LLMResp.success t)).2.1 s2 resp2).1
        = (get_market_multiplier cache s1 (LLMResp.success t)).1
    ∧ (get_market_multiplier (get_market_multiplier cache s1 (LLMResp.success t)).2.1 s2 resp2).2.1
        = (get_market_multiplier cache s1 (LLMResp.success t)).2.1 := by
  have hsig2 : marketStateSkills.lookup (normalize_skill s2) = none := by
    rw [← hnorm]
    exact hsig
  rcases hcm : cache.lookup (normalize_skill s1) with _ | m
  · have hcm2 : ((normalize_skill s1,
        trend_multiplier (strLower (t.getD ("stable")))) :: cache).lookup (normalize_skill s2)
          = some (trend_multiplier (strLower (t.getD ("stable")))) := by
      rw [← hnorm]
      simp [List.lookup_cons]
    simp [get_market_multiplier, hsig, hsig2, classify_unknown_skill, hcm, hcm2]
  · have hcm2 : cache.lookup (normalize_skill s2) = some m := by
      rw [← hnorm]
      exact hcm
    simp [get_market_multiplier, hsig, hsig2, classify_unknown_skill, hcm, hcm2]

/-- C10 witness: `Rust Embedded` classified successfully, then re-queried as
` rust embedded `. -/
theorem C10_cache_idempotent_witness :
    (get_market_multiplier
        (get_market_multiplier [] ("Rust Embedded") (LLMResp.success (some ("rising")))).2.1
        (" rust embedded ") LLMResp.failure).2.2 = false :=
  (C10_cache_idempotent [] ("Rust Embedded") (" rust embedded ") (some ("rising"))
    LLMResp.failure (by decide) (by decide)).1

/-- C3 (code bug): the static table keys are capitalized (`React`, `Python`, ...) but
`get_market_multiplier` lower-cases the skill before the dictionary lookup, so the normalized
name of every table entry misses the table.  For the table skill `React` the deterministic
path is never taken: the external classifier IS invoked and the cache IS used — a failing
external call even returns the fallback 1.0 instead of the 0.95 the table data computes.
This contradicts the module docstring `LLM inference ONLY for unknown skills`. -/
theorem C3_known_skill_misses_table :
    marketStateSkills.lookup ("React") = some ⟨4200, 380, ("high"), 4500⟩
    ∧ normalize_skill ("React") = ("react")
    ∧ marketStateSkills.lookup (normalize_skill ("React")) = none
    ∧ get_market_multiplier [] ("React") LLMResp.failure = (1.0, [], true)
    ∧ get_market_multiplier [] ("React") (LLMResp.success (some ("rising")))
        = (1.1, [((("react") : String), (1.1 : ℚ))], true)
    ∧ known_skill_multiplier ⟨4200, 380, ("high"), 4500⟩ = 0.95 := by
  have hsig : marketStateSkills.lookup (normalize_skill ("React")) = none := by decide
  have hsig2 : marketStateSkills.lookup ("react") = none := by decide
  have hnorm : normalize_skill ("React") = ("react") := by decide
  have hlow : strLower ("rising") = ("rising") := by decide
  refine ⟨by decide, hnorm, hsig, ?_, ?_, ?_⟩
  · simp [get_market_multiplier, hsig, classify_unknown_skill]
  · simp [get_market_multiplier, hsig, hsig2, classify_unknown_skill, hnorm, hlow,
      trend_multiplier]
  · have ht : calculate_trend 4200 4500 = ("stable") := by norm_num [calculate_trend]
    simp [known_skill_multiplier, ht, trend_multiplier, saturation_penalty, round2]
    norm_num [round_eq]

/-- C4 (code bug): the flag derivation degrades missing and invalid records to the
`no evidence` flags exactly as claimed, but `build_evidence` never returns normally: the
`EvidenceProfile` dataclass declares the fields `github_stats, leetcode_stats, flags,
feature_vector`, while the constructor call passes the keyword `encoded_features`, so every
invocation raises `TypeError` before a profile is attached. -/
theorem C4_build_evidence_raises :
    (∀ (gh : Option GithubRecord) (lc : Option LeetcodeRecord) (calcAge : String → ℚ),
      build_evidence gh lc calcAge
        = Except.error ("TypeError: EvidenceProfile.init got an unexpected keyword argument"))
    ∧ build_evidence_flags none none (fun _ => 0)
        = [("no_project_evidence"), ("no_dsa_evidence")]
    ∧ build_evidence_flags (some ⟨false, 9, 9, ("2020-01-01")⟩) (some ⟨false, 99, 0, 99, 0⟩)
        (fun _ => 0) = [("no_project_evidence"), ("no_dsa_evidence")]
    ∧ buildEvidenceKeywords.contains ("encoded_features") = true
    ∧ evidenceProfileFields.contains ("encoded_features") = false := by
  refine ⟨?_, by simp [build_evidence_flags], by simp [build_evidence_flags], by decide,
    by decide⟩
  intro gh lc calcAge
  simp [build_evidence, buildEvidenceKeywords, evidenceProfileFields]

/-- C5 counterexample: with `github=None` and `leetcode={valid:true, total_solved:5}` the
computed flags do include the no-project-evidence and weak-dsa-foundation tags, but the
encoded `has_projects` feature is `1`, not `0`: `_encode_flags` stores the 0/1 indicator of
the fired tag `no_project_evidence` under the feature name `has_projects`. -/
theorem C5_has_projects_is_one :
    List.lookup ("has_projects")
        (encode_flags (build_evidence_flags none (some ⟨true, 5, 0, 0, 0⟩) (fun _ => 0)))
      = some 1
    ∧ List.lookup ("has_projects")
        (encode_flags (build_evidence_flags none (some ⟨true, 5, 0, 0, 0⟩) (fun _ => 0)))
      ≠ some 0 := by
  have hf : build_evidence_flags none (some ⟨true, 5, 0, 0, 0⟩) (fun _ => 0)
      = [("no_project_evidence"), ("weak_dsa_foundation")] := by
    simp [build_evidence_flags]
  rw [hf]
  constructor
  · simp [encode_flags, TAG_ENCODINGS, List.lookup_cons]
  · simp [encode_flags, TAG_ENCODINGS, List.lookup_cons]

/-- C5 amended: at that input the computed flags list includes `no_project_evidence` and
`weak_dsa_foundation`, and the encoded `has_projects` feature equals `1` — the 0/1 indicator
of the fired `no_project_evidence` flag, stored under the registry feature name
`has_projects` (the profile itself is never attached; see C4). -/
theorem C5_flags_and_encoding :
    ("no_project_evidence") ∈ build_evidence_flags none (some ⟨true, 5, 0, 0, 0⟩) (fun _ => 0)
    ∧ ("weak_dsa_foundation") ∈ build_evidence_flags none (some ⟨true, 5, 0, 0, 0⟩) (fun _ => 0)
    ∧ List.lookup ("has_projects")
        (encode_flags (build_evidence_flags none (some ⟨true, 5, 0, 0, 0⟩) (fun _ => 0)))
      = some 1 := by
  have hf : build_evidence_flags none (some ⟨true, 5, 0, 0, 0⟩) (fun _ => 0)
      = [("no_project_evidence"), ("weak_dsa_foundation")] := by
    simp [build_evidence_flags]
  rw [hf]
  refine ⟨by simp, by simp, by simp [encode_flags, TAG_ENCODINGS, List.lookup_cons]⟩

/-- C7: the partitioning step of `make_decision` follows the reference algorithm: the ranked
list is the stable descending sort of the scores (sorted by score, a permutation of the
declaration-ordered score list, and any two entries with equal scores keep their declaration
order); walking it, the paths below the `0.25` floor form `drop` (regardless of remaining
capacity), the first `max_focus` at-or-above-floor paths form `focus`, and the remaining
at-or-above-floor paths form `park`; when the loop leaves `focus` non-empty, `make_decision`
returns exactly these lists. -/
theorem C7_partition_reference (gh : GithubStats) (lc : LeetcodeStats) (bias : InterestBias)
    (hours : Int) (m : Nat) :
    List.Sorted rankRel (rank_scores (path_scores (extract_features gh lc bias) hours))
    ∧ (rank_scores (path_scores (extract_features gh lc bias) hours)).Perm
        (path_scores (extract_features gh lc bias) hours)
    ∧ (∀ x y : String × ℚ, x.2 = y.2 →
        List.Sublist [x, y] (path_scores (extract_features gh lc bias) hours) →
        List.Sublist [x, y] (rank_scores (path_scores (extract_features gh lc bias) hours)))
    ∧ (run_partition (rank_scores (path_scores (extract_features gh lc bias) hours)) m).focus
        = (keptPaths (rank_scores (path_scores (extract_features gh lc bias) hours))).take m
    ∧ (run_partition (rank_scores (path_scores (extract_features gh lc bias) hours)) m).park
        = (keptPaths (rank_scores (path_scores (extract_features gh lc bias) hours))).drop m
    ∧ (run_partition (rank_scores (path_scores (extract_features gh lc bias) hours)) m).drop
        = lowPaths (rank_scores (path_scores (extract_features gh lc bias) hours))
    ∧ ((run_partition (rank_scores (path_scores (extract_features gh lc bias) hours)) m).focus
          ≠ [] →
        make_decision gh lc bias hours m =
          { focus :=
              (run_partition (rank_scores (path_scores (extract_features gh lc bias) hours))
                m).focus,
            park :=
              (run_partition (rank_scores (path_scores (extract_features gh lc bias) hours))
                m).park,
            drop :=
              (run_partition (rank_scores (path_scores (extract_features gh lc bias) hours))
                m).drop,
            reasons :=
              (run_partition (rank_scores (path_scores (extract_features gh lc bias) hours))
                m).reasons }) := by
  refine ⟨List.sorted_insertionSort rankRel _, List.perm_insertionSort rankRel _, ?_,
    (run_partition_eq _ _).1, (run_partition_eq _ _).2.1, (run_partition_eq _ _).2.2, ?_⟩
  · intro x y hxy hsub
    exact List.pair_sublist_insertionSort (show rankRel x y from le_of_eq hxy.symm) hsub
  · intro hne
    rcases hfoc : (run_partition (rank_scores (path_scores (extract_features gh lc bias)
        hours)) m).focus with _ | ⟨a, rest⟩
    · exact absurd hfoc hne
    · rw [make_decision]
      simp only [decision_from_scores, hfoc]

/-- C7 witness: at the all-zero profile the tied paths keep declaration order in the ranking;
at a development-biased profile the loop leaves a non-empty focus and `make_decision` returns
exactly the partition of the loop. -/
theorem C7_partition_reference_witness :
    List.Sublist
      [((("Frontend Engineering") : String), (0 : ℚ)), (("Backend Engineering"), 0)]
      (rank_scores (path_scores (extract_features {} {} {}) 15))
    ∧ make_decision {} {} ⟨1, 0, 0⟩ 20 2 =
        { focus := (run_partition
            (rank_scores (path_scores (extract_features {} {} ⟨1, 0, 0⟩) 20)) 2).focus,
          park := (run_partition
            (rank_scores (path_scores (extract_features {} {} ⟨1, 0, 0⟩) 20)) 2).park,
          drop := (run_partition
            (rank_scores (path_scores (extract_features {} {} ⟨1, 0, 0⟩) 20)) 2).drop,
          reasons := (run_partition
            (rank_scores (path_scores (extract_features {} {} ⟨1, 0, 0⟩) 20)) 2).reasons } := by
  constructor
  · have hs : path_scores (extract_features {} {} {}) 15
        = [(("Frontend Engineering"), (0:ℚ)), (("Backend Engineering"), 0),
           (("Data Science / ML"), 0), (("Competitive Programming"), 0)] := by
      simp [path_scores, CAREER_PATHS, extract_features, score_path, base_score,
        context_penalty, PATH_DIFFICULTY, round3, min_def, max_def]
    exact (C7_partition_reference {} {} {} 15 2).2.2.1 _ _ rfl
      (by rw [hs]
          exact List.Sublist.cons₂ _ (List.Sublist.cons₂ _ (List.nil_sublist _)))
  · apply (C7_partition_reference {} {} ⟨1, 0, 0⟩ 20 2).2.2.2.2.2.2
    have sFE : score_path (("Frontend Engineering")) (extract_features {} {} ⟨1, 0, 0⟩) 20
        = 2/5 := by
      simp [score_path, base_score, context_penalty, PATH_DIFFICULTY, extract_features,
        round3, min_def, max_def] <;> norm_num [round_eq]
    have sBE : score_path (("Backend Engineering")) (extract_features {} {} ⟨1, 0, 0⟩) 20
        = 3/10 := by
      simp [score_path, base_score, context_penalty, PATH_DIFFICULTY, extract_features,
        round3, min_def, max_def] <;> norm_num [round_eq]
    have sDS : score_path (("Data Science / ML")) (extract_features {} {} ⟨1, 0, 0⟩) 20
        = 0 := by
      simp [score_path, base_score, context_penalty, PATH_DIFFICULTY, extract_features,
        round3, min_def, max_def] <;> norm_num [round_eq]
    have sCP : score_path (("Competitive Programming")) (extract_features {} {} ⟨1, 0, 0⟩) 20
        = 0 := by
      simp [score_path, base_score, context_penalty, PATH_DIFFICULTY, extract_features,
        round3, min_def, max_def] <;> norm_num [round_eq]
    have hps : path_scores (extract_features {} {} ⟨1, 0, 0⟩) 20
        = [(("Frontend Engineering"), (2/5 : ℚ)), (("Backend Engineering"), 3/10),
           (("Data Science / ML"), 0), (("Competitive Programming"), 0)] := by
      simp [path_scores, CAREER_PATHS, sFE, sBE, sDS, sCP]
    have h2 : (0:ℚ) ≤ 3/10 := by norm_num
    have h3 : (3/10:ℚ) ≤ 2/5 := by norm_num
    have hrank : rank_scores [(("Frontend Engineering"), (2/5 : ℚ)),
        (("Backend Engineering"), 3/10), (("Data Science / ML"), 0),
        (("Competitive Programming"), 0)]
        = [(("Frontend Engineering"), (2/5 : ℚ)), (("Backend Engineering"), 3/10),
           (("Data Science / ML"), 0), (("Competitive Programming"), 0)] := by
      simp [rank_scores, rankRel, h2, h3]
    have h4 : ¬((2/5:ℚ) < 0.25) := by norm_num
    have h5 : ¬((3/10:ℚ) < 0.25) := by norm_num
    have h6 : (0:ℚ) < 0.25 := by norm_num
    rw [hps, hrank]
    have hrun : (run_partition [(("Frontend Engineering"), (2/5 : ℚ)),
        (("Backend Engineering"), 3/10), (("Data Science / ML"), 0),
        (("Competitive Programming"), 0)] 2).focus
        = [("Frontend Engineering"), ("Backend Engineering")] := by
      simp [run_partition, decision_step, h4, h5, h6]
    rw [hrun]
    simp

/-- C1 (code bug): when all four paths score below the floor (here the all-zero profile at 15
hours, capacity 2), every path is appended to `drop`, and the fallback then appends the top
ranked path to `focus` without removing it from `drop`: `Frontend Engineering` appears in both
`focus` and `drop` (twice across the three lists), `drop` holds all four paths instead of the
remaining three, and the partition is not exact. -/
theorem C1_fallback_duplicates_path :
    (make_decision {} {} {} 15 2).focus = [("Frontend Engineering")]
    ∧ (make_decision {} {} {} 15 2).park = []
    ∧ (make_decision {} {} {} 15 2).drop = CAREER_PATHS
    ∧ ((make_decision {} {} {} 15 2).focus ++ (make_decision {} {} {} 15 2).park
        ++ (make_decision {} {} {} 15 2).drop).count ("Frontend Engineering") = 2
    ∧ List.lookup ("Frontend Engineering") (make_decision {} {} {} 15 2).reasons
        = some Reason.fallback := by
  have h1 : (0:ℚ) < 0.25 := by norm_num
  have hmk : make_decision {} {} {} 15 2 =
      { focus := [("Frontend Engineering")], park := [],
        drop := [("Frontend Engineering"), ("Backend Engineering"), ("Data Science / ML"),
          ("Competitive Programming")],
        reasons := [(("Frontend Engineering"), Reason.fallback),
          (("Competitive Programming"), Reason.lowViability 0),
          (("Data Science / ML"), Reason.lowViability 0),
          (("Backend Engineering"), Reason.lowViability 0),
          (("Frontend Engineering"), Reason.lowViability 0)] } := by
    simp [make_decision, path_scores, extract_features, score_path, base_score,
      context_penalty, PATH_DIFFICULTY, round3, CAREER_PATHS, decision_from_scores,
      rank_scores, rankRel, run_partition, decision_step, min_def, max_def, h1]
  rw [hmk]
  refine ⟨rfl, rfl, by simp [CAREER_PATHS], by decide, by simp [List.lookup_cons]⟩

theorem market_mean_one (skills : List String) : market_mean (fun _ => (1:ℚ)) skills = 1 := by
  rcases skills with _ | ⟨a, t⟩
  · simp [market_mean]
  · have hsum : (((a :: t).map (fun _ => (1:ℚ))).sum) = (((a :: t).length : ℕ) : ℚ) := by
      simp [List.map_const', List.sum_replicate, nsmul_eq_mul]
      ring
    have hne : (((a :: t).length : ℕ) : ℚ) ≠ 0 := by
      have : (0:ℚ) < ((t.length : ℚ) + 1) := by positivity
      simp only [List.length_cons, Nat.cast_add, Nat.cast_one]
      linarith
    rw [market_mean, if_neg (by simp), hsum, div_self hne]

/-- C2 (spec-modelled): in the market-aware Decision Engine each final path score is the
post-penalty base score multiplied by the mean of the market multiplier over the path
representative skill set (clamped at zero, rounded to three decimals); a path with no mapped
skills uses the neutral mean `1.0`; with an all-neutral market the scores coincide with the
market-unaware engine under `src/`; and the decision genuinely depends on the market state. -/
theorem C2_market_scoring (pathSkills : String → List String) (mult : String → ℚ)
    (f : Features) (hours : Int) (path : String) :
    score_path_market pathSkills mult path f hours
      = round3 (max ((base_score path f - context_penalty path hours)
          * market_mean mult (pathSkills path)) 0)
    ∧ (pathSkills path = [] → market_mean mult (pathSkills path) = 1)
    ∧ score_path_market pathSkills (fun _ => 1) path f hours = score_path path f hours
    ∧ (∃ mult1 mult2 : String → ℚ,
        make_decision_market (fun _ => [("x")]) mult1 {} {} ⟨1, 0, 0⟩ 20 1
          ≠ make_decision_market (fun _ => [("x")]) mult2 {} {} ⟨1, 0, 0⟩ 20 1) := by
  refine ⟨rfl, ?_, ?_, ?_⟩
  · intro h
    rw [h]
    simp [market_mean]
  · rw [score_path_market, market_mean_one, mul_one, score_path]
  · refine ⟨fun _ => 1, fun _ => 0.7, ?_⟩
    intro heq
    have hm1 : market_mean (fun _ => (1:ℚ)) [("x")] = 1 := market_mean_one _
    have hm2 : market_mean (fun _ => (0.7:ℚ)) [("x")] = 0.7 := by
      simp [market_mean]
    have hFE1 : score_path_market (fun _ => [("x")]) (fun _ => 1) (("Frontend Engineering"))
        (extract_features {} {} ⟨1, 0, 0⟩) 20 = 2/5 := by
      rw [score_path_market, hm1, mul_one]
      simp [base_score, context_penalty, PATH_DIFFICULTY, extract_features, round3,
        min_def, max_def] <;> norm_num [round_eq]
    have hBE1 : score_path_market (fun _ => [("x")]) (fun _ => 1) (("Backend Engineering"))
        (extract_features {} {} ⟨1, 0, 0⟩) 20 = 3/10 := by
      rw [score_path_market, hm1, mul_one]
      simp [base_score, context_penalty, PATH_DIFFICULTY, extract_features, round3,
        min_def, max_def] <;> norm_num [round_eq]
    have hDS1 : score_path_market (fun _ => [("x")]) (fun _ => 1) (("Data Science / ML"))
        (extract_features {} {} ⟨1, 0, 0⟩) 20 = 0 := by
      rw [score_path_market, hm1, mul_one]
      simp [base_score, context_penalty, PATH_DIFFICULTY, extract_features, round3,
        min_def, max_def] <;> norm_num [round_eq]
    have hCP1 : score_path_market (fun _ => [("x")]) (fun _ => 1)
        (("Competitive Programming")) (extract_features {} {} ⟨1, 0, 0⟩) 20 = 0 := by
      rw [score_path_market, hm1, mul_one]
      simp [base_score, context_penalty, PATH_DIFFICULTY, extract_features, round3,
        min_def, max_def] <;> norm_num [round_eq]
    have hFE2 : score_path_market (fun _ => [("x")]) (fun _ => 0.7) (("Frontend Engineering"))
        (extract_features {} {} ⟨1, 0, 0⟩) 20 = 7/25 := by
      rw [score_path_market, hm2]
      simp [base_score, context_penalty, PATH_DIFFICULTY, extract_features, round3,
        min_def, max_def] <;> norm_num [round_eq]
    have hBE2 : score_path_market (fun _ => [("x")]) (fun _ => 0.7) (("Backend Engineering"))
        (extract_features {} {} ⟨1, 0, 0⟩) 20 = 21/100 := by
      rw [score_path_market, hm2]
      simp [base_score, context_penalty, PATH_DIFFICULTY, extract_features, round3,
        min_def, max_def] <;> norm_num [round_eq]
    have hDS2 : score_path_market (fun _ => [("x")]) (fun _ => 0.7) (("Data Science / ML"))
        (extract_features {} {} ⟨1, 0, 0⟩) 20 = 0 := by
      rw [score_path_market, hm2]
      simp [base_score, context_penalty, PATH_DIFFICULTY, extract_features, round3,
        min_def, max_def] <;> norm_num [round_eq]
    have hCP2 : score_path_market (fun _ => [("x")]) (fun _ => 0.7)
        (("Competitive Programming")) (extract_features {} {} ⟨1, 0, 0⟩) 20 = 0 := by
      rw [score_path_market, hm2]
      simp [base_score, context_penalty, PATH_DIFFICULTY, extract_features, round3,
        min_def, max_def] <;> norm_num [round_eq]
    have h2 : (0:ℚ) ≤ 3/10 := by norm_num
    have h3 : (3/10:ℚ) ≤ 2/5 := by norm_num
    have h4 : ¬((2/5:ℚ) < 0.25) := by norm_num
    have h5 : ¬((3/10:ℚ) < 0.25) := by norm_num
    have h6 : (0:ℚ) < 0.25 := by norm_num
    have h7 : (0:ℚ) ≤ 21/100 := by norm_num
    have h8 : (21/100:ℚ) ≤ 7/25 := by norm_num
    have h9 : ¬((7/25:ℚ) < 0.25) := by norm_num
    have h10 : (21/100:ℚ) < 0.25 := by norm_num
    have hp1 : (make_decision_market (fun _ => [("x")]) (fun _ => 1) {} {} ⟨1, 0, 0⟩ 20 1).park
        = [("Backend Engineering")] := by
      simp [make_decision_market, CAREER_PATHS, hFE1, hBE1, hDS1, hCP1,
        decision_from_scores, rank_scores, rankRel, run_partition, decision_step,
        h2, h3, h4, h5, h6]
    have hp2 : (make_decision_market (fun _ => [("x")]) (fun _ => 0.7) {} {} ⟨1, 0, 0⟩ 20
        1).park = [] := by
      simp [make_decision_market, CAREER_PATHS, hFE2, hBE2, hDS2, hCP2,
        decision_from_scores, rank_scores, rankRel, run_partition, decision_step,
        h6, h7, h8, h9, h10]
    rw [heq, hp2] at hp1
    exact List.noConfusion hp1

/-- C2 witness: a path mapped to no representative skills uses the neutral mean. -/
theorem C2_market_scoring_witness :
    market_mean (fun _ => (5:ℚ))
      ((fun _ : String => ([] : List String)) ("Frontend Engineering")) = 1 :=
  (C2_market_scoring (fun _ => []) (fun _ => 5) ⟨0, 0, 0, 0, 0, 0, 0, 0⟩ 0
    ("Frontend Engineering")).2.1 rfl

